import Mathlib

/-!
Shallow embedding of `discord-timestamp-bot` (Python) for specification
verification.

Embedded components:
* `src/utils/time_parser.py`: `parse_relative_time`, `parse_natural_time`,
  `generate_discord_timestamp`, `get_all_format_examples`.
* `src/cogs/timestamp.py`: the user-timezone store (`_get_user_timezone`,
  the `timezone` command's validate/update/persist path).

Modelling conventions:
* A Python `datetime` is modelled by `PyDatetime`: the floor of its Unix
  timestamp in seconds together with its sub-second microseconds; instants
  produced by the parsers are absolute, so no timezone field is needed for
  `timestamp()`.
* Third-party collaborators (pytz's IANA database, dateparser's phrase
  interpreter) are abstracted as function parameters (`valid`, `interp`),
  exactly at the call boundary the code uses them.
* The regexes `(\d+)\s*(?:hour|hr|h)s?` and `(\d+)\s*(?:minute|min|m)s?`
  are embedded by `searchUnit`: since each alternation contains its own
  first letter as a one-character alternative, `re.search` succeeds at a
  position iff that position starts a digit run which, after a whitespace
  run, is followed by that letter, and group(1) is the digit run
  (greedy `\d+` never needs to backtrack: a digit can satisfy neither
  `\s*`'s continuation nor the unit's first letter).  `re.search` returns
  the match at the leftmost successful start position.
* Python exceptions (`ValueError` variants) become an explicit error type.
* Characters are treated at ASCII granularity (the inputs of interest are
  ASCII): `\d` is `'0'..'9'`, `\s` is the six ASCII whitespace characters,
  `str.lower`/`str.strip` act accordingly.
-/

/-- Error taxonomy of the program's `ValueError`s (spec §7). -/
inductive ParseError where
  | invalidTimezone (tz : String)
  | unparseableTime (s : String)
  | unparseableDuration (s : String)
  deriving DecidableEq, Repr

/-- Python `\d` at ASCII granularity. -/
def isDigit (c : Char) : Bool := '0' ≤ c && c ≤ '9'

/-- Python `\s` at ASCII granularity: space, tab, newline, carriage
return, vertical tab, form feed. -/
def isPySpace (c : Char) : Bool :=
  c = ' ' || c = '\t' || c = '\n' || c = '\r' || c = '\x0b' || c = '\x0c'

/-- `int()` of a decimal digit string (Python `int(match.group(1))`). -/
def natOfDigits (ds : List Char) : Nat :=
  ds.foldl (fun a c => a * 10 + (c.toNat - 48)) 0

/-- Python `str.strip()`: drop leading and trailing whitespace. -/
def pyStrip (s : List Char) : List Char :=
  ((s.dropWhile isPySpace).reverse.dropWhile isPySpace).reverse

/-- `str.lower().strip()` normalisation done by `parse_relative_time`. -/
def normalizeDuration (s : String) : List Char :=
  pyStrip (s.data.map Char.toLower)

/-- One attempt of the unit regex anchored at the head of `s`: a nonempty
digit run, then a whitespace run, then the unit's first letter (`'h'` for
`(?:hour|hr|h)s?`, `'m'` for `(?:minute|min|m)s?`).  Returns group(1) as a
number on success. -/
def tryMatch (unit : Char) (s : List Char) : Option Nat :=
  match s with
  | [] => none
  | c :: _ =>
    if isDigit c then
      match (s.dropWhile isDigit).dropWhile isPySpace with
      | u :: _ => if u = unit then some (natOfDigits (s.takeWhile isDigit)) else none
      | [] => none
    else none

/-- `re.search` of the unit pattern: the match at the leftmost start
position where `tryMatch` succeeds. -/
def searchUnit (unit : Char) : List Char → Option Nat
  | [] => none
  | c :: cs =>
    match tryMatch unit (c :: cs) with
    | some n => some n
    | none => searchUnit unit cs

/-- The hour quantity `parse_relative_time` extracts (0 when the hour
pattern has no match). -/
def parsedHours (duration_str : String) : Nat :=
  (searchUnit 'h' (normalizeDuration duration_str)).getD 0

/-- The minute quantity `parse_relative_time` extracts (0 when the minute
pattern has no match). -/
def parsedMinutes (duration_str : String) : Nat :=
  (searchUnit 'm' (normalizeDuration duration_str)).getD 0

/-- `parse_relative_time` from `src/utils/time_parser.py`, with the wall
clock passed explicitly: `now` is the current UTC instant in epoch
seconds; on success the result is `now + hours*3600 + minutes*60` epoch
seconds (no timezone adjustment happens anywhere). -/
def parse_relative_time (now : Int) (duration_str : String) : Except ParseError Int :=
  if parsedHours duration_str = 0 ∧ parsedMinutes duration_str = 0 then
    .error (.unparseableDuration (String.mk (normalizeDuration duration_str)))
  else
    .ok (now + (parsedHours duration_str : Int) * 3600 + (parsedMinutes duration_str : Int) * 60)

/-- A Python `datetime` instant: `epochSeconds` is the floor of its Unix
timestamp, `micro` its sub-second microseconds (`0 ≤ micro < 10^6`). -/
structure PyDatetime where
  epochSeconds : Int
  micro : Nat
  deriving DecidableEq, Repr

/-- Python `int(dt.timestamp())`: truncation of the (possibly fractional)
timestamp toward zero. -/
def pyIntTimestamp (dt : PyDatetime) : Int :=
  if dt.epochSeconds < 0 ∧ dt.micro ≠ 0 then dt.epochSeconds + 1 else dt.epochSeconds

/-- `generate_discord_timestamp` from `src/utils/time_parser.py`:
`f"<t:{timestamp}:{format_type}>"` with `timestamp = int(dt.timestamp())`. -/
def generate_discord_timestamp (dt : PyDatetime) (format_type : String := "F") : String :=
  "<t:" ++ toString (pyIntTimestamp dt) ++ ":" ++ format_type ++ ">"

/-- The closed set of Discord format codes. -/
def validFormatCodes : List String := ["t", "T", "d", "D", "f", "F", "R"]

/-- `get_all_format_examples` from `src/utils/time_parser.py`, as the list
of (human-readable name, code, markup) triples of its returned dict, in
insertion order. -/
def get_all_format_examples (dt : PyDatetime) : List (String × String × String) :=
  [ ("Short Time", "t", generate_discord_timestamp dt "t"),
    ("Long Time", "T", generate_discord_timestamp dt "T"),
    ("Short Date", "d", generate_discord_timestamp dt "d"),
    ("Long Date", "D", generate_discord_timestamp dt "D"),
    ("Short Date/Time", "f", generate_discord_timestamp dt "f"),
    ("Long Date/Time", "F", generate_discord_timestamp dt "F"),
    ("Relative", "R", generate_discord_timestamp dt "R") ]

/-- `parse_natural_time` from `src/utils/time_parser.py`.  `valid` is
pytz's IANA-database membership test (`pytz.timezone` succeeding);
`interp` is `dateparser.parse` under the settings the code passes
(target timezone, timezone-aware output, prefer-future), abstracted as a
function of the text and the timezone name. -/
def parse_natural_time (valid : String → Bool)
    (interp : String → String → Option PyDatetime)
    (time_str : String) (user_timezone : String) : Except ParseError PyDatetime :=
  if valid user_timezone then
    match interp time_str user_timezone with
    | some dt => .ok dt
    | none => .error (.unparseableTime time_str)
  else
    .error (.invalidTimezone user_timezone)

/-- Lookup in a Python dict with string keys (`d.get(k)`), modelled on the
insertion-ordered association list underlying the dict. -/
def dictGet (d : List (String × String)) (k : String) : Option String :=
  (d.find? (fun p => p.1 == k)).map (·.2)

/-- Python dict assignment `d[k] = v`: overwrite in place if the key is
present, else append. -/
def dictInsert (d : List (String × String)) (k v : String) : List (String × String) :=
  if (d.find? (fun p => p.1 == k)).isSome then
    d.map (fun p => if p.1 == k then (k, v) else p)
  else
    d ++ [(k, v)]

/-- `TimestampCog._get_user_timezone`:
`self.user_timezones.get(str(user_id), "UTC")`. -/
def _get_user_timezone (user_timezones : List (String × String)) (user_id : Nat) : String :=
  (dictGet user_timezones (toString user_id)).getD "UTC"

/-- Outcome of one `timezone` command: the cog's in-memory mapping after
the command, the full mapping handed to `_save_timezones` (if any), and
the error surfaced to the user (if any). -/
structure CmdOutcome where
  timezones : List (String × String)
  persisted : Option (List (String × String))
  error : Option ParseError
  deriving DecidableEq, Repr

/-- `TimestampCog.timezone_command` from `src/cogs/timestamp.py`:
validate via `pytz.timezone` (abstracted as `valid`), then update
`self.user_timezones[str(user_id)]` and persist the full mapping; on
`UnknownTimeZoneError` reply with the unknown-timezone error and touch
nothing. -/
def timezone_command (valid : String → Bool) (user_timezones : List (String × String))
    (user_id : Nat) (timezone : String) : CmdOutcome :=
  if valid timezone then
    { timezones := dictInsert user_timezones (toString user_id) timezone,
      persisted := some (dictInsert user_timezones (toString user_id) timezone),
      error := none }
  else
    { timezones := user_timezones, persisted := none,
      error := some (.invalidTimezone timezone) }

/-! Helper lemmas shared by several claims. -/

lemma parse_relative_time_of_ne (now : Int) (s : String)
    (h : ¬(parsedHours s = 0 ∧ parsedMinutes s = 0)) :
    parse_relative_time now s =
      .ok (now + (parsedHours s : Int) * 3600 + (parsedMinutes s : Int) * 60) := by
  unfold parse_relative_time
  rw [if_neg h]

lemma parse_relative_time_of_eq (now : Int) (s : String)
    (h : parsedHours s = 0 ∧ parsedMinutes s = 0) :
    parse_relative_time now s =
      .error (.unparseableDuration (String.mk (normalizeDuration s))) := by
  unfold parse_relative_time
  rw [if_pos h]

lemma tryMatch_nil (unit : Char) : tryMatch unit [] = none := rfl

lemma searchUnit_cons (unit c : Char) (cs : List Char) :
    searchUnit unit (c :: cs) =
      match tryMatch unit (c :: cs) with
      | some n => some n
      | none => searchUnit unit cs := rfl

/-- `searchUnit` is exactly `re.search`: it returns the group captured at
the leftmost position where the unit pattern matches, ignoring every later
occurrence. -/
lemma searchUnit_eq_some_iff (unit : Char) (s : List Char) (n : Nat) :
    searchUnit unit s = some n ↔
      ∃ i, tryMatch unit (s.drop i) = some n ∧
        ∀ j, j < i → tryMatch unit (s.drop j) = none := by
  induction s with
  | nil =>
    constructor
    · intro h
      simp [searchUnit] at h
    · rintro ⟨i, hi, -⟩
      rw [List.drop_nil, tryMatch_nil] at hi
      cases hi
  | cons c cs ih =>
    cases htm : tryMatch unit (c :: cs) with
    | some m =>
      rw [searchUnit_cons, htm]
      constructor
      · intro h
        refine ⟨0, ?_, ?_⟩
        · rw [List.drop_zero, htm]
          exact h
        · intro j hj
          exact absurd hj (Nat.not_lt_zero j)
      · rintro ⟨i, hi, hj⟩
        cases i with
        | zero =>
          rw [List.drop_zero, htm] at hi
          exact hi
        | succ k =>
          have h0 := hj 0 (Nat.succ_pos k)
          rw [List.drop_zero, htm] at h0
          cases h0
    | none =>
      rw [searchUnit_cons, htm]
      rw [ih]
      constructor
      · rintro ⟨i, hi, hj⟩
        refine ⟨i + 1, ?_, ?_⟩
        · rwa [List.drop_succ_cons]
        · intro j hjlt
          cases j with
          | zero => rw [List.drop_zero]; exact htm
          | succ k =>
            rw [List.drop_succ_cons]
            exact hj k (Nat.lt_of_succ_lt_succ hjlt)
      · rintro ⟨i, hi, hj⟩
        cases i with
        | zero =>
          rw [List.drop_zero, htm] at hi
          cases hi
        | succ k =>
          rw [List.drop_succ_cons] at hi
          refine ⟨k, hi, ?_⟩
          intro j hjlt
          have := hj (j + 1) (Nat.succ_lt_succ hjlt)
          rwa [List.drop_succ_cons] at this

lemma find?_key_cons_self (k v : String) (l : List (String × String)) :
    List.find? (fun p => p.1 == k) ((k, v) :: l) = some (k, v) := by
  simp [List.find?_cons]

lemma find?_key_cons_ne (k : String) (x : String × String) (l : List (String × String))
    (hx : (x.1 == k) = false) :
    List.find? (fun p => p.1 == k) (x :: l) = List.find? (fun p => p.1 == k) l := by
  simp [List.find?_cons, hx]

lemma find?_key_cons_eq (k : String) (x : String × String) (l : List (String × String))
    (hx : (x.1 == k) = true) :
    List.find? (fun p => p.1 == k) (x :: l) = some x := by
  simp [List.find?_cons, hx]

/-- Inserting a binding makes `find?` for its key return it, whether the
key was already present (in-place overwrite) or not (append). -/
lemma find?_dictInsert (d : List (String × String)) (k v : String) :
    (dictInsert d k v).find? (fun p => p.1 == k) = some (k, v) := by
  induction d with
  | nil =>
    simp [dictInsert, List.find?]
  | cons a d ih =>
    simp only [dictInsert] at ih ⊢
    cases hk : a.1 == k with
    | true =>
      rw [find?_key_cons_eq k a d hk]
      simp only [Option.isSome_some, if_true, List.map_cons, hk, if_true]
      exact find?_key_cons_self k v _
    | false =>
      rw [find?_key_cons_ne k a d hk]
      have hfa : (if (a.1 == k) = true then (k, v) else a) = a := by
        simp [hk]
      by_cases h2 : (List.find? (fun p => p.1 == k) d).isSome
      · rw [if_pos h2] at ih ⊢
        rw [List.map_cons, hfa, find?_key_cons_ne k a _ hk]
        exact ih
      · rw [if_neg h2] at ih ⊢
        rw [List.cons_append, find?_key_cons_ne k a _ hk]
        exact ih

lemma dictGet_dictInsert_self (d : List (String × String)) (k v : String) :
    dictGet (dictInsert d k v) k = some v := by
  rw [dictGet, find?_dictInsert]
  rfl

/-! Claim theorems. -/

/-- C1: whenever the hour pattern and/or the minute pattern matches the
input with quantities `H` and `M` (an absent group counting as 0, not both
zero), `parse_relative_time` returns the current UTC instant plus
`H` hours and `M` minutes, with no timezone adjustment; in particular
"2 hours 15 minutes" yields now + 2h15m and "1h 30m" yields now + 1h30m. -/
theorem parse_relative_time_adds_duration :
    (∀ (now : Int) (s : String), ¬(parsedHours s = 0 ∧ parsedMinutes s = 0) →
      parse_relative_time now s =
        .ok (now + (parsedHours s : Int) * 3600 + (parsedMinutes s : Int) * 60)) ∧
    (∀ now : Int, parse_relative_time now "2 hours 15 minutes" = .ok (now + 8100)) ∧
    (∀ now : Int, parse_relative_time now "1h 30m" = .ok (now + 5400)) := by
  refine ⟨parse_relative_time_of_ne, ?_, ?_⟩
  · intro now
    rw [parse_relative_time_of_ne now _ (by decide)]
    have h1 : parsedHours "2 hours 15 minutes" = 2 := by decide
    have h2 : parsedMinutes "2 hours 15 minutes" = 15 := by decide
    rw [h1, h2]
    norm_num
    omega
  · intro now
    rw [parse_relative_time_of_ne now _ (by decide)]
    have h1 : parsedHours "1h 30m" = 1 := by decide
    have h2 : parsedMinutes "1h 30m" = 30 := by decide
    rw [h1, h2]
    norm_num
    omega

/-- Witness for C1 at `now = 0` and the input "2 hours 15 minutes". -/
theorem parse_relative_time_adds_duration_witness :
    parse_relative_time 0 "2 hours 15 minutes" = .ok (0 + 8100) :=
  parse_relative_time_adds_duration.2.1 0

/-- C2: for every instant and every code in the closed set
`{t, T, d, D, f, F, R}`, the formatter returns exactly
`<t:{epochSeconds}:{code}>` with the instant's epoch seconds truncated;
epoch 1704110400 with "F" gives `<t:1704110400:F>`, with "R"
`<t:1704110400:R>`. -/
theorem generate_discord_timestamp_format :
    (∀ (dt : PyDatetime) (code : String), code ∈ validFormatCodes →
      generate_discord_timestamp dt code =
        "<t:" ++ toString (pyIntTimestamp dt) ++ ":" ++ code ++ ">") ∧
    generate_discord_timestamp ⟨1704110400, 0⟩ "F" = "<t:1704110400:F>" ∧
    generate_discord_timestamp ⟨1704110400, 0⟩ "R" = "<t:1704110400:R>" := by
  refine ⟨?_, rfl, rfl⟩
  intro dt code _
  rfl

/-- Witness for C2 at epoch 1704110400 and code "F". -/
theorem generate_discord_timestamp_format_witness :
    generate_discord_timestamp ⟨1704110400, 0⟩ "F" =
      "<t:" ++ toString (pyIntTimestamp ⟨1704110400, 0⟩) ++ ":" ++ "F" ++ ">" :=
  generate_discord_timestamp_format.1 ⟨1704110400, 0⟩ "F" (by decide)

/-- C3: every markup string the program produces (all seven rows of
`get_all_format_examples`, and the formatter on any code from the closed
set, covering the two cog call sites with "F" and "R") embeds a Unix epoch
second count and exactly one format code from the closed set; the
formatter is a total function, so it never fails for a valid instant and a
code from the set. -/
theorem markup_embeds_code_invariant :
    ∀ dt : PyDatetime,
      (∀ e ∈ get_all_format_examples dt,
        e.2.1 ∈ validFormatCodes ∧
          ∃ n : Int, e.2.2 = "<t:" ++ toString n ++ ":" ++ e.2.1 ++ ">") ∧
      (∀ code ∈ validFormatCodes,
        ∃ n : Int,
          generate_discord_timestamp dt code = "<t:" ++ toString n ++ ":" ++ code ++ ">") := by
  intro dt
  constructor
  · intro e he
    simp only [get_all_format_examples, List.mem_cons, List.not_mem_nil, or_false] at he
    rcases he with rfl | rfl | rfl | rfl | rfl | rfl | rfl
    all_goals exact ⟨by simp [validFormatCodes], pyIntTimestamp dt, rfl⟩
  · intro code _
    exact ⟨pyIntTimestamp dt, rfl⟩

/-- Witness for C3 at epoch 1704110400 and code "R". -/
theorem markup_embeds_code_invariant_witness :
    ∃ n : Int,
      generate_discord_timestamp ⟨1704110400, 0⟩ "R" =
        "<t:" ++ toString n ++ ":" ++ "R" ++ ">" :=
  (markup_embeds_code_invariant ⟨1704110400, 0⟩).2 "R" (by decide)

/-- C4: `parse_relative_time` fails with the unparseable-duration error if
and only if both the hour and the minute quantity are absent or zero
("invalid duration" and "0 hours 0 minutes" fail); whenever at least one
parsed quantity is nonzero it succeeds. -/
theorem parse_relative_time_error_iff :
    (∀ (now : Int) (s : String),
      parse_relative_time now s =
          .error (.unparseableDuration (String.mk (normalizeDuration s))) ↔
        parsedHours s = 0 ∧ parsedMinutes s = 0) ∧
    (∀ (now : Int) (s : String), ¬(parsedHours s = 0 ∧ parsedMinutes s = 0) →
      ∃ v : Int, parse_relative_time now s = .ok v) ∧
    parse_relative_time 0 "invalid duration" =
      .error (.unparseableDuration "invalid duration") ∧
    parse_relative_time 0 "0 hours 0 minutes" =
      .error (.unparseableDuration "0 hours 0 minutes") := by
  refine ⟨?_, ?_, rfl, rfl⟩
  · intro now s
    constructor
    · intro h
      by_contra hne
      rw [parse_relative_time_of_ne now s hne] at h
      cases h
    · exact parse_relative_time_of_eq now s
  · intro now s hne
    exact ⟨_, parse_relative_time_of_ne now s hne⟩

/-- Witness for C4: "0h 5m" has a nonzero minute quantity, so parsing
succeeds. -/
theorem parse_relative_time_error_iff_witness :
    ∃ v : Int, parse_relative_time 0 "0h 5m" = .ok v :=
  parse_relative_time_error_iff.2.1 0 "0h 5m" (by decide)

/-- C5: each unit group is matched independently and only its first
occurrence in the normalized input is used (`searchUnit` returns the
quantity at the leftmost position where the unit pattern matches,
ignoring all later occurrences): "1 hour 2 hour 3 minutes" yields
hours = 1 and minutes = 3, silently ignoring the second "hour". -/
theorem duration_first_match_only :
    (∀ (unit : Char) (s : List Char) (n : Nat),
      searchUnit unit s = some n ↔
        ∃ i, tryMatch unit (s.drop i) = some n ∧
          ∀ j, j < i → tryMatch unit (s.drop j) = none) ∧
    parsedHours "1 hour 2 hour 3 minutes" = 1 ∧
    parsedMinutes "1 hour 2 hour 3 minutes" = 3 ∧
    (∀ now : Int,
      parse_relative_time now "1 hour 2 hour 3 minutes" = .ok (now + 3780)) := by
  refine ⟨searchUnit_eq_some_iff, by decide, by decide, ?_⟩
  intro now
  rw [parse_relative_time_of_ne now _ (by decide)]
  have h1 : parsedHours "1 hour 2 hour 3 minutes" = 1 := by decide
  have h2 : parsedMinutes "1 hour 2 hour 3 minutes" = 3 := by decide
  rw [h1, h2]
  norm_num
  omega

/-- Witness for C5: the concrete quantities extracted from
"1 hour 2 hour 3 minutes". -/
theorem duration_first_match_only_witness :
    parsedHours "1 hour 2 hour 3 minutes" = 1 ∧
      parsedMinutes "1 hour 2 hour 3 minutes" = 3 :=
  ⟨duration_first_match_only.2.1, duration_first_match_only.2.2.1⟩

/-- C10: the unit patterns are not word-bounded, so "10 months" is
accepted: the leading "m" of "months" matches the minute unit and the
result is now + 10 minutes (the hour pattern finds no match). -/
theorem duration_units_not_word_bounded :
    (∀ now : Int, parse_relative_time now "10 months" = .ok (now + 600)) ∧
    parsedMinutes "10 months" = 10 ∧ parsedHours "10 months" = 0 := by
  refine ⟨?_, by decide, by decide⟩
  intro now
  rw [parse_relative_time_of_ne now _ (by decide)]
  have h1 : parsedHours "10 months" = 0 := by decide
  have h2 : parsedMinutes "10 months" = 10 := by decide
  rw [h1, h2]
  norm_num

/-- C6: for every user id and every timezone name the IANA database
accepts, setting the timezone through the `timezone` command and then
reading it back returns that name; the most recent set wins, whatever the
store held before (including an earlier value for the same user). -/
theorem store_set_then_get :
    ∀ (valid : String → Bool) (tzs : List (String × String)) (u : Nat) (tz : String),
      valid tz = true →
      _get_user_timezone (timezone_command valid tzs u tz).timezones u = tz := by
  intro valid tzs u tz hv
  have h : timezone_command valid tzs u tz =
      { timezones := dictInsert tzs (toString u) tz,
        persisted := some (dictInsert tzs (toString u) tz),
        error := none } := by
    unfold timezone_command
    rw [if_pos hv]
  rw [h]
  show (dictGet (dictInsert tzs (toString u) tz) (toString u)).getD "UTC" = tz
  rw [dictGet_dictInsert_self]
  rfl

/-- Witness for C6: user 1 overwrites an earlier preference. -/
theorem store_set_then_get_witness :
    _get_user_timezone
      (timezone_command (fun _ => true) [("1", "Asia/Tokyo")] 1
        "America/New_York").timezones 1 = "America/New_York" :=
  store_set_then_get (fun _ => true) [("1", "Asia/Tokyo")] 1 "America/New_York" rfl

/-- C7: for every user for which no timezone has ever been set (fresh
store, or any store whose mapping has no entry for the user), the store
read returns the default "UTC". -/
theorem store_get_default_utc :
    (∀ u : Nat, _get_user_timezone [] u = "UTC") ∧
    (∀ (tzs : List (String × String)) (u : Nat),
      dictGet tzs (toString u) = none → _get_user_timezone tzs u = "UTC") := by
  constructor
  · intro u
    rfl
  · intro tzs u h
    unfold _get_user_timezone
    rw [h]
    rfl

/-- Witness for C7: a store holding only user 5 yields "UTC" for user 7. -/
theorem store_get_default_utc_witness :
    _get_user_timezone [("5", "Europe/London")] 7 = "UTC" :=
  store_get_default_utc.2 [("5", "Europe/London")] 7 (by decide)

/-- C8: the `timezone` command validates the name against the IANA
database before accepting it: an unrecognized name fails with the
invalid-timezone error and leaves the in-memory mapping unchanged with
nothing persisted; a recognized name updates the in-memory mapping and
persists the full updated mapping. -/
theorem timezone_command_validate_update_persist :
    ∀ (valid : String → Bool) (tzs : List (String × String)) (u : Nat) (tz : String),
      (valid tz = false →
        timezone_command valid tzs u tz =
          { timezones := tzs, persisted := none,
            error := some (.invalidTimezone tz) }) ∧
      (valid tz = true →
        timezone_command valid tzs u tz =
          { timezones := dictInsert tzs (toString u) tz,
            persisted := some (dictInsert tzs (toString u) tz),
            error := none }) := by
  intro valid tzs u tz
  constructor
  · intro hv
    unfold timezone_command
    rw [if_neg (by simp [hv])]
  · intro hv
    unfold timezone_command
    rw [if_pos hv]

/-- Witness for C8: a rejected name leaves the store untouched. -/
theorem timezone_command_validate_update_persist_witness :
    timezone_command (fun t => t == "UTC") [] 1 "Not/A-Zone" =
      { timezones := [], persisted := none,
        error := some (.invalidTimezone "Not/A-Zone") } :=
  (timezone_command_validate_update_persist (fun t => t == "UTC") [] 1 "Not/A-Zone").1
    (by decide)

/-- C9: `parse_natural_time` fails with the invalid-timezone error
whenever the timezone name is not recognized — for every interpreter, so
the check happens independently of (and before) any delegation to the
external interpreter — and for a recognized name it fails with the
unparseable-time error exactly when the interpreter returns no result; in
particular "xyz not a time" with timezone "UTC" fails with the
unparseable-time error whenever the interpreter has no result for it. -/
theorem parse_natural_time_error_taxonomy :
    (∀ (valid : String → Bool) (interp : String → String → Option PyDatetime)
        (time_str user_timezone : String),
      (valid user_timezone = false →
        parse_natural_time valid interp time_str user_timezone =
          .error (.invalidTimezone user_timezone)) ∧
      (valid user_timezone = true →
        (parse_natural_time valid interp time_str user_timezone =
            .error (.unparseableTime time_str) ↔
          interp time_str user_timezone = none))) ∧
    (∀ (valid : String → Bool) (interp : String → String → Option PyDatetime),
      valid "UTC" = true → interp "xyz not a time" "UTC" = none →
      parse_natural_time valid interp "xyz not a time" "UTC" =
        .error (.unparseableTime "xyz not a time")) := by
  constructor
  · intro valid interp ts tz
    constructor
    · intro hv
      unfold parse_natural_time
      rw [if_neg (by simp [hv])]
    · intro hv
      unfold parse_natural_time
      rw [if_pos hv]
      cases hi : interp ts tz with
      | some dt =>
        simp
      | none =>
        simp
  · intro valid interp hv hi
    unfold parse_natural_time
    rw [if_pos hv, hi]

/-- Witness for C9: an always-valid database and an interpreter with no
result produce the unparseable-time error on "xyz not a time". -/
theorem parse_natural_time_error_taxonomy_witness :
    parse_natural_time (fun _ => true) (fun _ _ => none) "xyz not a time" "UTC" =
      .error (.unparseableTime "xyz not a time") :=
  parse_natural_time_error_taxonomy.2 (fun _ => true) (fun _ _ => none) rfl rfl
